import Mathlib

/-!
Shallow embedding of the bioisac-poc ETL pipeline
(src/etl/etl_starter.py and src/etl/queries.py) and proofs about it.

Python dict-shaped records become Lean structures; `Optional` fields become
`Option`; Python truthiness of optional strings is made explicit; CVSS
floating-point scores (always one-decimal values in the feed) are modelled
as exact rationals; current time is passed explicitly as a day number /
date value, matching the design note that the clock be injectable.
-/

namespace Bioisac

/-- Python truthiness of an optional string: `None` and `""` are falsy. -/
def truthyS : Option String → Bool
  | none => false
  | some s => !(s = "")

/-- Value of an optional string under Python `x or ""` style access. -/
def getS (o : Option String) : String := o.getD ""

/-- Boolean list-prefix test (Python `str.startswith` on char lists). -/
def listPrefB : List Char → List Char → Bool
  | [], _ => true
  | _ :: _, [] => false
  | a :: as, b :: bs => a = b && listPrefB as bs

/-- Boolean substring test on char lists (Python `needle in haystack`). -/
def listSubB (needle : List Char) : List Char → Bool
  | [] => needle.isEmpty
  | b :: bs => listPrefB needle (b :: bs) || listSubB needle bs

/-- Python `needle in haystack` for strings. -/
def strHasSub (haystack needle : String) : Bool :=
  listSubB needle.data haystack.data

/-- Python `str.lower()` (ASCII case folding, enough for the data here). -/
def lowerStr (s : String) : String := ⟨s.data.map Char.toLower⟩

/-- Python `str.startswith`. -/
def strStartsWithB (s pre : String) : Bool := listPrefB pre.data s.data

/-- Python `str.endswith`. -/
def strEndsWithB (s suff : String) : Bool :=
  listPrefB suff.data.reverse s.data.reverse

/-- Python `str.rstrip(".")`: drop every trailing dot. -/
def pyRstripDot (s : String) : String :=
  ⟨(s.data.reverse.dropWhile (fun c => c = '.')).reverse⟩

/-- Lexicographic strict order on char lists by code point, as Python
compares strings. -/
def listCharLtB : List Char → List Char → Bool
  | [], [] => false
  | [], _ :: _ => true
  | _ :: _, [] => false
  | a :: as, b :: bs =>
    if a.toNat < b.toNat then true
    else if b.toNat < a.toNat then false
    else listCharLtB as bs

def strLtB (a b : String) : Bool := listCharLtB a.data b.data

def strLeB (a b : String) : Bool := !(strLtB b a)

/-- The (code-point lexicographic) order Python `sorted` uses on strings. -/
def strLe (a b : String) : Prop := strLeB a b = true

instance : DecidableRel strLe :=
  fun a b => inferInstanceAs (Decidable (strLeB a b = true))

/-- Python `sorted(set(l))` for lists of strings: deduplicate, then sort
lexicographically by code point. -/
def sortedDedup (l : List String) : List String :=
  List.insertionSort strLe l.dedup

/-- Python `str.title()` for ASCII text: a letter is uppercased when the
previous character is not a letter, lowercased otherwise. -/
def pyTitleAux : Bool → List Char → List Char
  | _, [] => []
  | prev, c :: cs =>
      (if c.isAlpha then (if prev then c.toLower else c.toUpper) else c)
        :: pyTitleAux c.isAlpha cs

def pyTitle (s : String) : String := ⟨pyTitleAux false s.data⟩

/-! ### Calendar arithmetic

`score_record` compares the published date against the current time and the
overdue check in `run` compares a KEV due date against today.  Dates are
mapped to proleptic-Gregorian day numbers; "now" is passed in as a day
number (the design notes require the clock to be injectable). -/

def isLeap (y : Nat) : Bool := (y % 4 = 0 && !(y % 100 = 0)) || y % 400 = 0

def daysInMonth (y m : Nat) : Nat :=
  if m = 2 then (if isLeap y then 29 else 28)
  else if m = 4 || m = 6 || m = 9 || m = 11 then 30
  else 31

def daysBeforeMonth (y m : Nat) : Nat :=
  (List.range (m - 1)).foldl (fun acc i => acc + daysInMonth y (i + 1)) 0

/-- Day number of year `y`, month `m`, day `d` (proleptic Gregorian). -/
def dayNumber (y m d : Nat) : Nat :=
  365 * (y - 1) + (y - 1) / 4 - (y - 1) / 100 + (y - 1) / 400
    + daysBeforeMonth y m + d

def allDigits (l : List Char) : Bool := l.all (fun c => c.isDigit)

def digitsToNat (l : List Char) : Nat :=
  l.foldl (fun n c => 10 * n + (c.toNat - 48)) 0

/-- Python `str.split(sep)` for a single-character separator. -/
def splitOnChar (sep : Char) : List Char → List (List Char)
  | [] => [[]]
  | c :: cs =>
    if c = sep then [] :: splitOnChar sep cs
    else
      match splitOnChar sep cs with
      | [] => [[c]]
      | g :: gs => (c :: g) :: gs

/-- Parse a `YYYY-MM-DD` date (the shape `datetime.fromisoformat` accepts
for the date-only strings this pipeline produces) to a day number. -/
def parseIsoDateDays (s : String) : Option Nat :=
  match splitOnChar '-' s.data with
  | [ys, ms, ds] =>
    if allDigits ys && allDigits ms && allDigits ds
        && ys.length = 4 && ms.length = 2 && ds.length = 2 then
      let y := digitsToNat ys
      let m := digitsToNat ms
      let d := digitsToNat ds
      if 1 ≤ m && m ≤ 12 && 1 ≤ d && d ≤ daysInMonth y m then
        some (dayNumber y m d)
      else none
    else none
  | _ => none

/-- Published-date parsing in `score_record`: a string with a `T` goes down
the full-timestamp branch (modelled as its date part; `normalize_nvd` only
ever emits date-only strings), otherwise `fromisoformat` on the date. -/
def parsePublishedDays (s : String) : Option Nat :=
  if strHasSub s "T" then
    parseIsoDateDays ⟨s.data.takeWhile (fun c => !(c = 'T'))⟩
  else parseIsoDateDays s

/-! ### Data model (duck-typed dicts in the source become structures) -/

/-- Output of `normalize_kev`: one row of the CISA KEV catalog. -/
structure KevRecord where
  cve_id : Option String
  vendor : Option String
  product : Option String
  due_date : Option String
  description : Option String
deriving DecidableEq, Repr

/-- The dict produced by `normalize_nvd` and mutated by `merge_records`
(the canonical merged record that `upsert_vuln` persists). -/
structure MergedRecord where
  cve_id : Option String
  title : Option String
  description : String
  cvss_base : Option ℚ
  cvss_vector : Option String
  severity : Option String
  published : Option String
  last_modified : Option String
  vendor : Option String
  product : Option String
  source_list : List String
  euvd_notes : Option String
  advisory_url : Option String
  plain_summary : Option String
  safe_action : Option String
  integrity_notes : List String
  conflict_flag : Nat
deriving DecidableEq, Repr

/-- The dict produced by `score_record` (persisted by `upsert_tag`).
Boolean flags are stored as `int(flag)` in the source, hence `Nat`. -/
structure Tag where
  cve_id : Option String
  kev_flag : Nat
  ics_flag : Nat
  medical_flag : Nat
  bio_keyword_flag : Nat
  recent_flag : Nat
  cvss_high_flag : Nat
  bio_score : Nat
  source_count : Nat
  confidence_level : String
  conflict_flag : Nat
  category_labels : List String
  notes : Option String
deriving DecidableEq, Repr

/-! ### Keyword flagging and scoring (etl_starter.py) -/

def ICS_KEYWORDS : List String :=
  ["industrial control", "ics", "scada", "plc", "rtu", "controller"]

def MEDICAL_KEYWORDS : List String :=
  ["medical", "clinical", "healthcare", "hospital", "biomedical", "diagnostic"]

def BIO_KEYWORDS : List String :=
  ["sequencer", "bioreactor", "incubator", "centrifuge", "pipette", "lab",
   "dna", "genomics"]

/-- Model of `flag_keywords`: case-insensitive substring match of any keyword. -/
def flag_keywords (text : String) (keywords : List String) : Bool :=
  if text = "" then false
  else keywords.any (fun keyword => strHasSub (lowerStr text) keyword)

def natOfBool (b : Bool) : Nat := if b then 1 else 0

/-- The recent-published test inside `score_record`: a truthy published
date that parses and lies within 14 days of now (unparseable dates fall
back to false via the caught exception). -/
def recentFlagOf (published : Option String) (today : Nat) : Bool :=
  match published with
  | none => false
  | some p =>
    if p = "" then false
    else
      match parsePublishedDays p with
      | none => false
      | some pub => decide ((today : ℤ) - (pub : ℤ) ≤ 14)

/-- Model of `score_record(record, kev)`. `today` is the day number of
`datetime.utcnow()` (explicit clock). -/
def score_record (record : MergedRecord) (kev : Option KevRecord)
    (today : Nat) : Tag :=
  let description := record.description
  let kev_flag := kev.isSome
  let bio_score := if kev_flag then 3 else 0
  let ics_flag := flag_keywords description ICS_KEYWORDS
  let bio_score := bio_score + if ics_flag then 2 else 0
  let medical_flag := flag_keywords description MEDICAL_KEYWORDS
  let bio_score := bio_score + if medical_flag then 2 else 0
  let cvss := record.cvss_base.getD 0
  let cvss_high_flag := decide ((8 : ℚ) ≤ cvss)
  let bio_score := bio_score + if cvss_high_flag then 1 else 0
  let recent_flag := recentFlagOf record.published today
  let bio_score := bio_score + if recent_flag then 1 else 0
  let bio_keyword_flag := flag_keywords description BIO_KEYWORDS
  let bio_score := bio_score + if bio_keyword_flag then 1 else 0
  let categories : List String :=
    (if kev_flag then ["KEV"] else [])
      ++ (if ics_flag then ["ICS"] else [])
      ++ (if medical_flag then ["Medical"] else [])
      ++ (if bio_keyword_flag then ["Bio"] else [])
      ++ (if truthyS record.severity then [pyTitle (getS record.severity)]
          else [])
  { cve_id := record.cve_id
    kev_flag := natOfBool kev_flag
    ics_flag := natOfBool ics_flag
    medical_flag := natOfBool medical_flag
    bio_keyword_flag := natOfBool bio_keyword_flag
    recent_flag := natOfBool recent_flag
    cvss_high_flag := natOfBool cvss_high_flag
    bio_score := bio_score
    source_count := record.source_list.length
    confidence_level :=
      if kev_flag || 2 ≤ record.source_list.length then "high" else "low"
    conflict_flag := record.conflict_flag
    category_labels := categories
    notes :=
      let joined := String.intercalate "," record.integrity_notes
      if joined = "" then none else some joined }

/-- Model of `merge_records(record, kev)`: enrich the primary record with KEV data,
record conflicts, then normalize `source_list` to sorted-unique. -/
def merge_records (record : MergedRecord) (kev : Option KevRecord) :
    MergedRecord :=
  let r :=
    match kev with
    | none => record
    | some k =>
      let r := { record with source_list := record.source_list ++ ["KEV"] }
      let r := if truthyS r.title then r else { r with title := k.description }
      let r :=
        if truthyS k.vendor && truthyS r.vendor && !(k.vendor = r.vendor) then
          { r with integrity_notes := r.integrity_notes ++ ["vendor_conflict"]
                   conflict_flag := 1 }
        else r
      let r :=
        if truthyS k.product && truthyS r.product && !(k.product = r.product)
        then
          { r with integrity_notes := r.integrity_notes ++ ["product_conflict"]
                   conflict_flag := 1 }
        else r
      let r :=
        if !truthyS r.vendor && truthyS k.vendor then
          { r with vendor := k.vendor }
        else r
      let r :=
        if !truthyS r.product && truthyS k.product then
          { r with product := k.product }
        else r
      { r with integrity_notes := r.integrity_notes ++ ["kev_enriched"] }
  { r with source_list := sortedDedup r.source_list }

/-! ### NVD normalization (etl_starter.py) -/

/-- One entry of an NVD item's reference list. -/
structure NvdReference where
  url : Option String
  tags : List String
deriving DecidableEq, Repr

structure CpeMatch where
  criteria : Option String
deriving DecidableEq, Repr

structure ConfigNode where
  cpeMatch : List CpeMatch
deriving DecidableEq, Repr

structure NvdConfig where
  nodes : List ConfigNode
deriving DecidableEq, Repr

structure CvssData where
  baseScore : Option ℚ
  vectorString : Option String
deriving DecidableEq, Repr

structure CvssMetric where
  cvssData : CvssData
  baseSeverity : Option String
deriving DecidableEq, Repr

structure NvdDescription where
  value : String
deriving DecidableEq, Repr

/-- The `cve` sub-dict of an NVD API item (the fields the code reads).
`configurations` is modelled in the list shape the NVD 2.0 API returns
(the code also tolerates a legacy dict shape). -/
structure NvdCve where
  id : Option String
  sourceIdentifier : Option String
  metricsV31 : Option (List CvssMetric)
  metricsV30 : Option (List CvssMetric)
  descriptions : List NvdDescription
  published : Option String
  lastModified : Option String
  configurations : List NvdConfig
  references : List NvdReference
deriving DecidableEq, Repr

structure NvdItem where
  cve : NvdCve
deriving DecidableEq, Repr

def preferred_domains : List String :=
  ["nvd.nist.gov", "cve.mitre.org", "github.com", "githubusercontent.com",
   "security-advisories.github.com"]

def problematic_patterns : List String :=
  ["/Error/", "/error/", "/404", "/404.html", "realtek.com/Error"]

/-- Model of `is_problematic_url`: the URL contains one of the known-broken
patterns, case-insensitively. -/
def is_problematic_url (url : String) : Bool :=
  problematic_patterns.any
    (fun pattern => strHasSub (lowerStr url) (lowerStr pattern))

/-- Model of `_extract_advisory_url`: three find-first passes over the references,
then an unconditional fallback to the first reference. -/
def _extract_advisory_url (refs : List NvdReference) : Option String :=
  match refs with
  | [] => none
  | first :: _ =>
    match refs.find? (fun r =>
        preferred_domains.any (fun d => strHasSub (lowerStr (getS r.url)) d))
      with
    | some r => some (getS r.url)
    | none =>
      match refs.find? (fun r =>
          r.tags.contains "Vendor Advisory"
            && !(getS r.url = "") && !is_problematic_url (getS r.url)) with
      | some r => some (getS r.url)
      | none =>
        match refs.find? (fun r =>
            !(getS r.url = "") && !is_problematic_url (getS r.url)) with
        | some r => some (getS r.url)
        | none => first.url

/-- Model of `_extract_vendor_product` inner scan: walk the CPE match entries (the
two nested loops flattened), updating vendor/product and stopping as soon
as both are non-empty. -/
def scanCpeMatches : Option String → Option String → List CpeMatch →
    Option String × Option String
  | v, p, [] => (v, p)
  | v, p, m :: ms =>
    match m.criteria with
    | none => scanCpeMatches v p ms
    | some c =>
      if c = "" then scanCpeMatches v p ms
      else
        let parts := splitOnChar ':' c.data
        let v2 :=
          if 5 ≤ parts.length then
            (let f := parts.getD 3 []
             if f = [] then v else some ⟨f⟩)
          else v
        let p2 :=
          if 5 ≤ parts.length then
            (let f := parts.getD 4 []
             if f = [] then p else some ⟨f⟩)
          else p
        if truthyS v2 && truthyS p2 then (v2, p2)
        else scanCpeMatches v2 p2 ms

def _extract_vendor_product (cve : NvdCve) : Option String × Option String :=
  let nodes := (cve.configurations.map (fun config => config.nodes)).flatten
  scanCpeMatches none none ((nodes.map (fun node => node.cpeMatch)).flatten)

/-- Python `published.split("T")[0]`. -/
def beforeT (p : String) : String := ⟨p.data.takeWhile (fun c => !(c = 'T'))⟩

/-- Model of `normalize_nvd(item)`.  When a metric key is present the code indexes
element 0; the empty-metric-list case (which would raise in Python and
never occurs in feed data) is modelled as an absent metric. -/
def normalize_nvd (item : NvdItem) : MergedRecord :=
  let cve := item.cve
  let metric :=
    match cve.metricsV31 with
    | some (m :: _) => some m
    | some [] => none
    | none =>
      match cve.metricsV30 with
      | some (m :: _) => some m
      | _ => none
  let cvss := metric.bind (fun m => m.cvssData.baseScore)
  let severity := metric.bind (fun m => m.baseSeverity)
  let vector := metric.bind (fun m => m.cvssData.vectorString)
  let desc :=
    match cve.descriptions with
    | [] => ""
    | d :: _ => d.value
  let vp := _extract_vendor_product cve
  { cve_id := cve.id
    title := cve.sourceIdentifier
    description := desc
    cvss_base := cvss
    cvss_vector := vector
    severity := severity
    published :=
      match cve.published with
      | none => none
      | some p => if p = "" then none else some (beforeT p)
    last_modified :=
      match cve.lastModified with
      | none => none
      | some p => if p = "" then none else some (beforeT p)
    vendor := vp.1
    product := vp.2
    source_list := ["NVD"]
    euvd_notes := none
    advisory_url := _extract_advisory_url cve.references
    plain_summary := none
    safe_action := none
    integrity_notes := []
    conflict_flag := 0 }

/-! ### KEV normalization and date parsing -/

/-- One row of the KEV CSV as produced by `csv.DictReader` (every header
column is present; `cveID` is the dict-comprehension key in `run`). -/
structure KevRow where
  cveID : String
  vendorProject : Option String
  product : Option String
  dueDate : Option String
  vulnerabilityName : Option String
deriving DecidableEq, Repr

def normalize_kev (row : KevRow) : KevRecord :=
  { cve_id := some row.cveID
    vendor := row.vendorProject
    product := row.product
    due_date := row.dueDate
    description := row.vulnerabilityName }

def isSpaceChar (c : Char) : Bool :=
  c = ' ' || c = '\t' || c = '\n' || c = '\r' || c = '\x0b' || c = '\x0c'

/-- Python `str.strip()`. -/
def pyStrip (s : String) : String :=
  ⟨((s.data.dropWhile isSpaceChar).reverse.dropWhile isSpaceChar).reverse⟩

/-- Model of `datetime.strptime(s, "%m/%d/%Y")` (1-2 digit month/day, 4-digit
year, calendar-valid), as a day number. -/
def parseUsDateDays (s : String) : Option Nat :=
  match splitOnChar '/' s.data with
  | [ms, ds, ys] =>
    if allDigits ms && allDigits ds && allDigits ys
        && 1 ≤ ms.length && ms.length ≤ 2
        && 1 ≤ ds.length && ds.length ≤ 2
        && ys.length = 4 then
      let m := digitsToNat ms
      let d := digitsToNat ds
      let y := digitsToNat ys
      if 1 ≤ m && m ≤ 12 && 1 ≤ d && d ≤ daysInMonth y m then
        some (dayNumber y m d)
      else none
    else none
  | _ => none

/-- Model of `parse_kev_date`: MM/DD/YYYY first, ISO date as fallback, `None` on
failure.  The result is a day number for comparison against today. -/
def parse_kev_date (date_str : Option String) : Option Nat :=
  match date_str with
  | none => none
  | some s =>
    if s = "" then none
    else
      match parseUsDateDays (pyStrip s) with
      | some d => some d
      | none => parseIsoDateDays (pyStrip s)

/-! ### Summary and safe action -/

/-- Prefix of `l` strictly before the first occurrence of `sep`, or `none`
when `sep` does not occur (`Python: sep in s` / `s.split(sep)[0]`). -/
def beforeFirstSub (sep : List Char) : List Char → Option (List Char)
  | [] => if sep.isEmpty then some [] else none
  | c :: cs =>
    if listPrefB sep (c :: cs) then some []
    else (beforeFirstSub sep cs).map (fun pre => c :: pre)

/-- Model of `derive_summary(description)`: strip, newline→space, cut at the first
". ", truncate to 280 characters. -/
def derive_summary (description : String) : Option String :=
  if description = "" then none
  else
    let summary :=
      (pyStrip description).data.map (fun c => if c = '\n' then ' ' else c)
    let summary :=
      match beforeFirstSub ". ".data summary with
      | some pre => pre ++ ".".data
      | none => summary
    some ⟨summary.take 280⟩

/-- Rules 2-7 of `pick_safe_action` (after the KEV-due-date rule). -/
def pickSafeActionRest (tags : Tag) (record : MergedRecord) : Option String :=
  if truthyS record.advisory_url then
    some "Apply vendor guidance/patch per linked advisory."
  else if !(tags.ics_flag = 0) then
    some "Segment affected ICS assets and restrict network access until patched."
  else if !(tags.medical_flag = 0) then
    some "Coordinate with clinical engineering to apply vendor update with patient safety review."
  else if !(tags.bio_keyword_flag = 0) then
    some "Review lab controls and update firmware/software per vendor recommendations."
  else if !(tags.cvss_high_flag = 0) then
    some "Prioritize remediation alongside other critical vulnerabilities."
  else none

/-- Model of `pick_safe_action(tags, record, kev)`: first matching rule wins. -/
def pick_safe_action (tags : Tag) (record : MergedRecord)
    (kev : Option KevRecord) : Option String :=
  match kev with
  | some k =>
    if truthyS k.due_date then
      some ("Follow CISA KEV guidance; remediate before "
        ++ getS k.due_date ++ ".")
    else pickSafeActionRest tags record
  | none => pickSafeActionRest tags record

/-- The overdue post-step in `run` (lines 422-428): when the safe action is
the KEV-guidance text and the due date parses and is already past, append
the "(overdue)" marker. -/
def applyOverdue (safeActionField : Option String) (kev : Option KevRecord)
    (today : Nat) : Option String :=
  let safe_action := getS safeActionField
  if strStartsWithB (lowerStr safe_action) "follow cisa kev guidance" then
    let due_date := kev.bind (fun k => k.due_date)
    if truthyS due_date then
      match parse_kev_date due_date with
      | some due =>
        if due < today then
          some (pyRstripDot safe_action ++ " (overdue).")
        else safeActionField
      | none => safeActionField
    else safeActionField
  else safeActionField

/-! ### Persistence upsert layer (queries.py)

The MySQL tables keyed by `cve_id` are modelled as row lists; an
`INSERT ... ON DUPLICATE KEY UPDATE` that updates every listed column is a
whole-row replacement.  JSON text columns (`source_list`,
`category_labels`) are modelled as the lists they encode.  The `last_seen`
timestamp column is not modelled (no claim depends on it). -/

/-- One row of the `vulns` table, i.e. the payload of `upsert_vuln`. -/
structure VulnRow where
  cve_id : Option String
  title : Option String
  description : String
  cvss_base : Option ℚ
  cvss_vector : Option String
  severity : Option String
  published : Option String
  last_modified : Option String
  vendor : Option String
  product : Option String
  source_list : Option (List String)
  euvd_notes : Option String
  advisory_url : Option String
  plain_summary : Option String
  safe_action : Option String
deriving DecidableEq, Repr

/-- The `upsert_vuln` payload: every field taken from the record, with
`source_list` re-encoded as `json.dumps(sorted(set(...)))` or NULL. -/
def vulnPayload (record : MergedRecord) : VulnRow :=
  { cve_id := record.cve_id
    title := record.title
    description := record.description
    cvss_base := record.cvss_base
    cvss_vector := record.cvss_vector
    severity := record.severity
    published := record.published
    last_modified := record.last_modified
    vendor := record.vendor
    product := record.product
    source_list :=
      if record.source_list = [] then none
      else some (sortedDedup record.source_list)
    euvd_notes := record.euvd_notes
    advisory_url := record.advisory_url
    plain_summary := record.plain_summary
    safe_action := record.safe_action }

/-- Model of `upsert_vuln(conn, record)`: insert, or on duplicate key overwrite
every column with the new payload's value. -/
def upsert_vuln (db : List VulnRow) (record : MergedRecord) : List VulnRow :=
  let payload := vulnPayload record
  if db.any (fun row => row.cve_id = payload.cve_id) then
    db.map (fun row => if row.cve_id = payload.cve_id then payload else row)
  else db ++ [payload]

/-- One row of the `tags` table, i.e. the payload of `upsert_tag`. -/
structure TagRow where
  cve_id : Option String
  kev_flag : Nat
  ics_flag : Nat
  medical_flag : Nat
  bio_keyword_flag : Nat
  recent_flag : Nat
  cvss_high_flag : Nat
  bio_score : Nat
  source_count : Nat
  confidence_level : String
  conflict_flag : Nat
  category_labels : Option (List String)
  notes : Option String
deriving DecidableEq, Repr

/-- The `upsert_tag` payload: `category_labels` is re-encoded as
`json.dumps(sorted(set(...)))` or NULL; everything else is copied. -/
def tagPayload (tag : Tag) : TagRow :=
  { cve_id := tag.cve_id
    kev_flag := tag.kev_flag
    ics_flag := tag.ics_flag
    medical_flag := tag.medical_flag
    bio_keyword_flag := tag.bio_keyword_flag
    recent_flag := tag.recent_flag
    cvss_high_flag := tag.cvss_high_flag
    bio_score := tag.bio_score
    source_count := tag.source_count
    confidence_level := tag.confidence_level
    conflict_flag := tag.conflict_flag
    category_labels :=
      if tag.category_labels = [] then none
      else some (sortedDedup tag.category_labels)
    notes := tag.notes }

/-- Model of `upsert_tag(conn, tag)`: insert, or on duplicate key overwrite every
column with the new payload's value. -/
def upsert_tag (db : List TagRow) (tag : Tag) : List TagRow :=
  let payload := tagPayload tag
  if db.any (fun row => row.cve_id = payload.cve_id) then
    db.map (fun row => if row.cve_id = payload.cve_id then payload else row)
  else db ++ [payload]

/-! ### The pipeline entrypoint `run` -/

structure DbState where
  vulns : List VulnRow
  tags : List TagRow
deriving DecidableEq, Repr

/-- Lookup in the `kev_rows` dict built in `run` (later rows win, as in a
Python dict comprehension). -/
def dictGet (rows : List (String × KevRecord)) (key : String) :
    Option KevRecord :=
  (rows.reverse.find? (fun p => p.1 = key)).map (fun p => p.2)

/-- Model of `kev_rows`: comprehension over the fetched KEV rows; a fetch failure
degrades to the empty dict (`except` branch in `run`). -/
def kevRowsOf : Except String (List KevRow) → List (String × KevRecord)
  | .error _ => []
  | .ok rows => rows.map (fun row => (row.cveID, normalize_kev row))

/-- One iteration of the load loop in `run`: normalize, skip empty ids,
merge, score, summarize, pick the action, apply the overdue marker, and
upsert both rows.  The accumulated `List Tag` records what was loaded. -/
def processNvdItem (kev_rows : List (String × KevRecord)) (today : Nat)
    (acc : DbState × List Tag) (item : NvdItem) : DbState × List Tag :=
  let record := normalize_nvd item
  if truthyS record.cve_id then
    let kev_data := dictGet kev_rows (getS record.cve_id)
    let merged := merge_records record kev_data
    let tags := score_record merged kev_data today
    let summary := derive_summary merged.description
    let merged :=
      if truthyS summary then { merged with plain_summary := summary }
      else merged
    let action := pick_safe_action tags merged kev_data
    let merged :=
      if truthyS action then { merged with safe_action := action } else merged
    let merged :=
      { merged with safe_action := applyOverdue merged.safe_action kev_data today }
    ⟨{ vulns := upsert_vuln acc.1.vulns merged
       tags := upsert_tag acc.1.tags tags },
     acc.2 ++ [tags]⟩
  else acc

/-- Model of `run()`: a primary-fetch failure re-raises before the database is
touched; a secondary-fetch failure degrades to an empty KEV dict and the
load loop proceeds over every NVD item. -/
def runModel (nvdResult : Except String (List NvdItem))
    (kevResult : Except String (List KevRow)) (db : DbState) (today : Nat) :
    Except String (DbState × List Tag) :=
  match nvdResult with
  | .error e => .error e
  | .ok items =>
    .ok (items.foldl (processNvdItem (kevRowsOf kevResult) today) (db, []))

/-! ### Statement-side helper definitions -/

/-- Guard of rule 1 in `pick_safe_action`: a KEV record with a truthy due
date (`kev and kev.get("due_date")`). -/
def kevHasDue : Option KevRecord → Bool
  | some k => truthyS k.due_date
  | none => false

/-- Suffix of `l` strictly after the first occurrence of `sep`, or `none`
when `sep` does not occur. -/
def afterFirstSub (sep : List Char) : List Char → Option (List Char)
  | [] => if sep.isEmpty then some [] else none
  | c :: cs =>
    if listPrefB sep (c :: cs) then some ((c :: cs).drop sep.length)
    else afterFirstSub sep cs

/-- Host portion of a URL: the text between `://` and the next `/` (empty
when the URL has no scheme separator). -/
def urlHost (url : String) : String :=
  match afterFirstSub "://".data url.data with
  | some rest => ⟨rest.takeWhile (fun c => !(c = '/'))⟩
  | none => ""

/-- The spec's broken-URL test: case-insensitive substrings "/error/" or
"/404" only.  (Claim side of C7; the code also treats "realtek.com/Error"
as broken.) -/
def specBrokenUrl (url : String) : Bool :=
  strHasSub (lowerStr url) "/error/" || strHasSub (lowerStr url) "/404"

/-- Advisory-URL selection exactly as claim C7 words it: pass 1 matches
the URL HOST against the allow-list; the broken patterns are only
"/error/" and "/404".  (Claim-side definition, to be compared with
`_extract_advisory_url`.) -/
def extract_advisory_url_specModel (refs : List NvdReference) :
    Option String :=
  match refs with
  | [] => none
  | first :: _ =>
    match refs.find? (fun r =>
        preferred_domains.contains (lowerStr (urlHost (getS r.url)))) with
    | some r => some (getS r.url)
    | none =>
      match refs.find? (fun r =>
          r.tags.contains "Vendor Advisory"
            && !(getS r.url = "") && !specBrokenUrl (getS r.url)) with
      | some r => some (getS r.url)
      | none =>
        match refs.find? (fun r =>
            !(getS r.url = "") && !specBrokenUrl (getS r.url)) with
        | some r => some (getS r.url)
        | none => first.url

/-- The broken-URL test as the code actually behaves, written from the
amended claim: the case-insensitive substrings "/error/", "/404",
"/404.html" and "realtek.com/error". -/
def amendedBrokenUrl (url : String) : Bool :=
  (["/error/", "/404", "/404.html", "realtek.com/error"] : List String).any
    (fun pattern => strHasSub (lowerStr url) pattern)

/-- Advisory-URL selection as amended: pass 1 matches a trusted domain as
a case-insensitive substring anywhere in the URL (not the host), and the
broken patterns are those of `amendedBrokenUrl`. -/
def extract_advisory_url_amended (refs : List NvdReference) :
    Option String :=
  match refs with
  | [] => none
  | first :: _ =>
    match refs.find? (fun r =>
        preferred_domains.any (fun d => strHasSub (lowerStr (getS r.url)) d))
      with
    | some r => some (getS r.url)
    | none =>
      match refs.find? (fun r =>
          r.tags.contains "Vendor Advisory"
            && !(getS r.url = "") && !amendedBrokenUrl (getS r.url)) with
      | some r => some (getS r.url)
      | none =>
        match refs.find? (fun r =>
            !(getS r.url = "") && !amendedBrokenUrl (getS r.url)) with
        | some r => some (getS r.url)
        | none => first.url

/-! ### Shared sample inputs for concrete evaluations -/

/-- A minimal NVD-normalized record, as `normalize_nvd` would produce for
an item with no optional data. -/
def sampleRec : MergedRecord :=
  { cve_id := some "CVE-2024-0001", title := none, description := ""
    cvss_base := none, cvss_vector := none, severity := none
    published := none, last_modified := none, vendor := none, product := none
    source_list := ["NVD"], euvd_notes := none, advisory_url := none
    plain_summary := none, safe_action := none, integrity_notes := []
    conflict_flag := 0 }

/-- A normalized KEV catalog row for the same identifier. -/
def sampleKev : KevRecord :=
  { cve_id := some "CVE-2024-0001", vendor := some "acme"
    product := some "widget", due_date := some "01/02/2024"
    description := some "Acme Widget RCE" }

/-- Like `sampleRec` but with vendor/product that disagree with
`sampleKev`. -/
def sampleRecConflict : MergedRecord :=
  { sampleRec with vendor := some "other", product := some "gadget" }

/-- A record carrying two sources, as a first pipeline run would store. -/
def sampleRecTwoSources : MergedRecord :=
  { sampleRec with source_list := ["NVD", "KEV"] }

/-- A record with both an advisory URL and an ICS-triggering description
(for the C5 priority check and the C8 category order). -/
def sampleRecAdvisoryIcs : MergedRecord :=
  { sampleRec with description := "scada system flaw"
                   advisory_url := some "https://vendor.example/advisory" }

/-- A record with an ICS-triggering description only. -/
def sampleRecIcs : MergedRecord :=
  { sampleRec with description := "scada system flaw" }

/-- Reference whose URL merely mentions a trusted domain in its query
string; its host is not on the allow-list. -/
def refEvil : NvdReference :=
  { url := some "https://evil.example/?q=github.com", tags := [] }

/-- Reference hosted on the actual NVD domain. -/
def refNvd : NvdReference :=
  { url := some "https://nvd.nist.gov/vuln/detail/CVE-2024-0001"
    tags := [] }

/-- Vendor-advisory reference matching the code's extra
"realtek.com/Error" broken pattern but neither spec pattern. -/
def refRealtek : NvdReference :=
  { url := some "https://www.realtek.com/Errors-page", tags := ["Vendor Advisory"] }

/-- A plain, unbroken reference. -/
def refPlain : NvdReference :=
  { url := some "https://other.example/advisory", tags := [] }

/-- A minimal NVD feed item with an identifier and nothing else. -/
def sampleItem : NvdItem :=
  { cve :=
    { id := some "CVE-2024-0002", sourceIdentifier := some "cna@example.org"
      metricsV31 := none, metricsV30 := none
      descriptions := [{ value := "A flaw." }]
      published := some "2024-01-01T00:00:00.000"
      lastModified := none, configurations := [], references := [] } }

/-! ### Order and sorting lemmas -/

theorem listCharLtB_asymm :
    ∀ a b, listCharLtB a b = true → listCharLtB b a = false := by
  intro a
  induction a with
  | nil =>
    intro b h
    cases b with
    | nil => simp [listCharLtB] at h
    | cons y ys => simp [listCharLtB]
  | cons x xs ih =>
    intro b h
    cases b with
    | nil => simp [listCharLtB] at h
    | cons y ys =>
      unfold listCharLtB at h ⊢
      split_ifs at h ⊢ with h1 h2 h3 h4 <;>
        first | rfl | omega | exact ih ys h | simp at h

theorem listCharLtB_conn :
    ∀ a b, listCharLtB a b = false → listCharLtB b a = false → a = b := by
  intro a
  induction a with
  | nil =>
    intro b h1 h2
    cases b with
    | nil => rfl
    | cons y ys => simp [listCharLtB] at h1
  | cons x xs ih =>
    intro b h1 h2
    cases b with
    | nil => simp [listCharLtB] at h2
    | cons y ys =>
      unfold listCharLtB at h1 h2
      split_ifs at h1 h2 with h3 h4 <;> try simp at h1 h2
      have hxy : x = y := by
        apply Char.ext
        apply UInt32.ext
        simp only [Char.toNat, UInt32.toNat] at h3 h4 ⊢
        omega
      rw [hxy, ih ys h1 h2]

theorem listCharLtB_trans :
    ∀ a b c, listCharLtB a b = true → listCharLtB b c = true →
      listCharLtB a c = true := by
  intro a
  induction a with
  | nil =>
    intro b c h1 h2
    cases b with
    | nil => simp [listCharLtB] at h1
    | cons y ys =>
      cases c with
      | nil => simp [listCharLtB] at h2
      | cons z zs => simp [listCharLtB]
  | cons x xs ih =>
    intro b c h1 h2
    cases b with
    | nil => simp [listCharLtB] at h1
    | cons y ys =>
      cases c with
      | nil => simp [listCharLtB] at h2
      | cons z zs =>
        unfold listCharLtB at h1 h2 ⊢
        split_ifs at h1 h2 ⊢ with h3 h4 h5 h6 h7 h8 <;>
          first | rfl | omega | exact ih ys zs h1 h2 | simp at h1 h2

theorem strLe_total : ∀ a b : String, strLe a b ∨ strLe b a := by
  intro a b
  unfold strLe strLeB strLtB
  cases h : listCharLtB b.data a.data with
  | false => left; rfl
  | true => right; simp [listCharLtB_asymm _ _ h]

theorem strLe_trans :
    ∀ a b c : String, strLe a b → strLe b c → strLe a c := by
  intro a b c h1 h2
  unfold strLe strLeB strLtB at h1 h2 ⊢
  simp only [Bool.not_eq_true'] at h1 h2 ⊢
  cases h3 : listCharLtB c.data a.data with
  | false => rfl
  | true =>
    exfalso
    cases h4 : listCharLtB b.data c.data with
    | false =>
      have hbc := listCharLtB_conn _ _ h4 h2
      rw [← hbc] at h3
      rw [h1] at h3
      simp at h3
    | true =>
      cases h5 : listCharLtB a.data b.data with
      | false =>
        have hab := listCharLtB_conn _ _ h5 h1
        rw [hab] at h3
        rw [h2] at h3
        simp at h3
      | true =>
        have h6 := listCharLtB_trans _ _ _ h3 h5
        rw [h2] at h6
        simp at h6

theorem strLe_antisymm :
    ∀ a b : String, strLe a b → strLe b a → a = b := by
  intro a b h1 h2
  unfold strLe strLeB strLtB at h1 h2
  simp only [Bool.not_eq_true'] at h1 h2
  cases a with
  | mk da =>
    cases b with
    | mk db => exact congrArg String.mk (listCharLtB_conn da db h2 h1)

theorem sortedDedup_sorted (l : List String) :
    List.Sorted strLe (sortedDedup l) := by
  haveI : IsTotal String strLe := ⟨strLe_total⟩
  haveI : IsTrans String strLe := ⟨strLe_trans⟩
  exact List.sorted_insertionSort strLe l.dedup

theorem sortedDedup_nodup (l : List String) : (sortedDedup l).Nodup :=
  ((List.perm_insertionSort strLe l.dedup).nodup_iff).mpr (List.nodup_dedup l)

theorem sortedDedup_mem (l : List String) (x : String) :
    x ∈ sortedDedup l ↔ x ∈ l := by
  unfold sortedDedup
  rw [List.mem_insertionSort, List.mem_dedup]

theorem sortedDedup_idem (l : List String) :
    sortedDedup (sortedDedup l) = sortedDedup l := by
  have h1 : (sortedDedup l).dedup = sortedDedup l :=
    List.dedup_eq_self.mpr (sortedDedup_nodup l)
  show List.insertionSort strLe (sortedDedup l).dedup = sortedDedup l
  rw [h1]
  exact (sortedDedup_sorted l).insertionSort_eq

theorem sortedDedup_append_mem (l : List String) (x : String) (hx : x ∈ l) :
    sortedDedup (sortedDedup l ++ [x]) = sortedDedup l := by
  haveI : IsAntisymm String strLe := ⟨strLe_antisymm⟩
  have hxm : x ∈ sortedDedup l := (sortedDedup_mem l x).mpr hx
  have hperm : List.Perm ((sortedDedup l ++ [x]).dedup) (sortedDedup l) := by
    rw [List.perm_ext_iff_of_nodup (List.nodup_dedup _) (sortedDedup_nodup l)]
    intro a
    simp only [List.mem_dedup, List.mem_append, List.mem_singleton]
    constructor
    · rintro (h | rfl)
      · exact h
      · exact hxm
    · exact Or.inl
  apply List.eq_of_perm_of_sorted _ (sortedDedup_sorted _) (sortedDedup_sorted l)
  exact (List.perm_insertionSort strLe _).trans hperm

/-! ### Prefix/suffix lemmas for action texts -/

theorem listPrefB_refl : ∀ l : List Char, listPrefB l l = true := by
  intro l
  induction l with
  | nil => rfl
  | cons c cs ih => simp [listPrefB, ih]

theorem listPrefB_append :
    ∀ (n x y : List Char), listPrefB n x = true →
      listPrefB n (x ++ y) = true := by
  intro n
  induction n with
  | nil => intro x y _; rfl
  | cons a as ih =>
    intro x y h
    cases x with
    | nil => simp [listPrefB] at h
    | cons b bs =>
      simp [listPrefB] at h ⊢
      exact ⟨h.1, ih bs y h.2⟩

theorem strData_append (a b : String) : (a ++ b).data = a.data ++ b.data :=
  by
  cases a
  cases b
  rfl

theorem lowerStr_append (a b : String) :
    lowerStr (a ++ b) = lowerStr a ++ lowerStr b := by
  cases a with
  | mk da =>
    cases b with
    | mk db =>
      apply congrArg String.mk
      show (String.mk da ++ String.mk db).data.map Char.toLower
          = (lowerStr (String.mk da) ++ lowerStr (String.mk db)).data
      rw [strData_append, List.map_append]
      rfl

theorem strEndsWithB_append (a b : String) :
    strEndsWithB (a ++ b) b = true := by
  unfold strEndsWithB
  rw [strData_append, List.reverse_append]
  exact listPrefB_append _ _ _ (listPrefB_refl _)

/-- The rule-1 action text always passes the lowercased prefix check that
guards the overdue adjustment in `run`. -/
theorem kevText_startsWith (s : String) :
    strStartsWithB
      (lowerStr ("Follow CISA KEV guidance; remediate before " ++ s ++ "."))
      "follow cisa kev guidance" = true := by
  unfold strStartsWithB
  rw [lowerStr_append, lowerStr_append, strData_append, strData_append,
    List.append_assoc]
  exact listPrefB_append _ _ _ (by decide)

/-! ### Shape of a KEV-enriched merge -/

/-- Closed form of `merge_records record (some k)`: field-by-field result
of the sequential updates in the source. -/
theorem merge_records_some_eq (record : MergedRecord) (k : KevRecord) :
    merge_records record (some k) =
      { cve_id := record.cve_id
        title := if truthyS record.title then record.title else k.description
        description := record.description
        cvss_base := record.cvss_base
        cvss_vector := record.cvss_vector
        severity := record.severity
        published := record.published
        last_modified := record.last_modified
        vendor :=
          if !truthyS record.vendor && truthyS k.vendor then k.vendor
          else record.vendor
        product :=
          if !truthyS record.product && truthyS k.product then k.product
          else record.product
        source_list := sortedDedup (record.source_list ++ ["KEV"])
        euvd_notes := record.euvd_notes
        advisory_url := record.advisory_url
        plain_summary := record.plain_summary
        safe_action := record.safe_action
        integrity_notes :=
          record.integrity_notes
            ++ (if truthyS k.vendor && truthyS record.vendor
                  && !(k.vendor = record.vendor) then ["vendor_conflict"]
                else [])
            ++ (if truthyS k.product && truthyS record.product
                  && !(k.product = record.product) then ["product_conflict"]
                else [])
            ++ ["kev_enriched"]
        conflict_flag :=
          if (truthyS k.vendor && truthyS record.vendor
                && !(k.vendor = record.vendor))
              || (truthyS k.product && truthyS record.product
                && !(k.product = record.product)) then 1
          else record.conflict_flag } := by
  cases h1 : truthyS record.title <;>
    cases h2 : truthyS k.vendor && truthyS record.vendor
      && !decide (k.vendor = record.vendor) <;>
    cases h3 : truthyS k.product && truthyS record.product
      && !decide (k.product = record.product) <;>
    cases h4 : !truthyS record.vendor && truthyS k.vendor <;>
    cases h5 : !truthyS record.product && truthyS k.product <;>
    simp [merge_records, h1, h2, h3, h4, h5]

/-! ### C1 -/

/-- C1: for every tag produced by `score_record`, `bio_score` is exactly
the weighted sum of the true flags (known-exploited 3, ICS 2, medical 2,
high-severity 1, recent 1, bio-keyword 1), and the high-severity flag is
set iff the severity score is at least 8, a missing score counting as 0. -/
theorem C1_bio_score_weighted_sum (record : MergedRecord)
    (kev : Option KevRecord) (today : Nat) :
    (score_record record kev today).bio_score =
        3 * (score_record record kev today).kev_flag
        + 2 * (score_record record kev today).ics_flag
        + 2 * (score_record record kev today).medical_flag
        + 1 * (score_record record kev today).cvss_high_flag
        + 1 * (score_record record kev today).recent_flag
        + 1 * (score_record record kev today).bio_keyword_flag
      ∧ ((score_record record kev today).cvss_high_flag = 1 ↔
          (8 : ℚ) ≤ record.cvss_base.getD 0) := by
  constructor
  · cases hk : kev.isSome <;>
      cases hi : flag_keywords record.description ICS_KEYWORDS <;>
      cases hm : flag_keywords record.description MEDICAL_KEYWORDS <;>
      cases hc : decide ((8 : ℚ) ≤ record.cvss_base.getD 0) <;>
      cases hr : recentFlagOf record.published today <;>
      cases hb : flag_keywords record.description BIO_KEYWORDS <;>
      simp [score_record, natOfBool, hk, hi, hm, hc, hr, hb]
  · by_cases h : (8 : ℚ) ≤ record.cvss_base.getD 0 <;>
      simp [score_record, natOfBool, h]

/-! ### C3 -/

/-- C3: the confidence level is always one of "high"/"low", and it is
"high" exactly when the known-exploited flag is set or the source count is
at least 2 (hence for every source count, in particular 0-3, crossed with
either KEV presence). -/
theorem C3_confidence_level (record : MergedRecord) (kev : Option KevRecord)
    (today : Nat) :
    ((score_record record kev today).confidence_level = "high" ∨
        (score_record record kev today).confidence_level = "low")
      ∧ ((score_record record kev today).confidence_level = "high" ↔
          ((score_record record kev today).kev_flag = 1 ∨
            2 ≤ (score_record record kev today).source_count)) := by
  cases hk : kev.isSome <;>
    by_cases hs : 2 ≤ record.source_list.length <;>
    simp [score_record, natOfBool, hk, hs]

/-! ### C4 -/

/-- C4: when both sources carry a non-empty vendor and the values differ
(case-sensitive exact comparison), the merge sets the conflict flag,
appends "vendor_conflict", and keeps the primary vendor; the analogous
property holds for product with "product_conflict"; and "kev_enriched" is
appended whenever secondary data is present at all. -/
theorem C4_merge_conflict_handling (record : MergedRecord) (k : KevRecord) :
    ((truthyS k.vendor = true ∧ truthyS record.vendor = true ∧
          k.vendor ≠ record.vendor) →
        (merge_records record (some k)).conflict_flag = 1 ∧
          "vendor_conflict" ∈ (merge_records record (some k)).integrity_notes ∧
          (merge_records record (some k)).vendor = record.vendor)
      ∧ ((truthyS k.product = true ∧ truthyS record.product = true ∧
            k.product ≠ record.product) →
          (merge_records record (some k)).conflict_flag = 1 ∧
            "product_conflict" ∈
              (merge_records record (some k)).integrity_notes ∧
            (merge_records record (some k)).product = record.product)
      ∧ "kev_enriched" ∈ (merge_records record (some k)).integrity_notes := by
  rw [merge_records_some_eq]
  refine ⟨?_, ?_, ?_⟩
  · rintro ⟨hv, hr, hne⟩
    simp [hv, hr, hne, List.mem_append]
  · rintro ⟨hp, hrp, hne⟩
    simp [hp, hrp, hne, List.mem_append]
  · simp [List.mem_append]

/-- Witness for C4 at a concrete conflicting record. -/
theorem C4_merge_conflict_handling_witness :
    (merge_records sampleRecConflict (some sampleKev)).conflict_flag = 1 ∧
      "vendor_conflict" ∈
        (merge_records sampleRecConflict (some sampleKev)).integrity_notes ∧
      (merge_records sampleRecConflict (some sampleKev)).vendor =
        some "other" := by
  have h := (C4_merge_conflict_handling sampleRecConflict sampleKev).1
    ⟨by decide, by decide, by decide⟩
  exact ⟨h.1, h.2.1, h.2.2⟩

/-! ### C6 -/

/-- C6 counterexample: re-merging the already merged record with the same
KEV record duplicates the "kev_enriched" integrity note, so the output is
not byte-for-byte identical — merge+score is not idempotent as claimed. -/
theorem C6_not_idempotent_with_kev :
    merge_records (merge_records sampleRec (some sampleKev)) (some sampleKev)
        ≠ merge_records sampleRec (some sampleKev)
      ∧ (merge_records (merge_records sampleRec (some sampleKev))
          (some sampleKev)).integrity_notes
          = ["kev_enriched", "kev_enriched"]
      ∧ (merge_records sampleRec (some sampleKev)).integrity_notes
          = ["kev_enriched"] := by
  refine ⟨?_, by decide, by decide⟩
  intro h
  have := congrArg MergedRecord.integrity_notes h
  revert this
  decide

/-- C6 amended: merge is idempotent when no secondary record is present,
and even with one the `source_list` does not grow on re-merge; but the
integrity notes are appended again whenever secondary data is present, so
full byte-for-byte idempotence fails (see the counterexample). -/
theorem C6_merge_idempotence_amended :
    (∀ r : MergedRecord,
        merge_records (merge_records r none) none = merge_records r none)
      ∧ (∀ (r : MergedRecord) (k : KevRecord),
          (merge_records (merge_records r (some k)) (some k)).source_list =
            (merge_records r (some k)).source_list) := by
  constructor
  · intro r
    simp [merge_records, sortedDedup_idem]
  · intro r k
    rw [merge_records_some_eq, merge_records_some_eq]
    exact sortedDedup_append_mem (r.source_list ++ ["KEV"]) "KEV"
      (by simp)

/-! ### C10 -/

/-- C10: keyword flagging is plain case-insensitive substring matching
with no word boundaries: the lone word "available" (containing "lab") sets
the bio-keyword flag, and "graphics" (ending in "ics") sets the ICS flag. -/
theorem C10_keyword_substring_matching :
    (score_record { sampleRec with description := "available" } none 0).bio_keyword_flag = 1
      ∧ (score_record { sampleRec with description := "graphics" } none 0).ics_flag = 1
      ∧ flag_keywords "available" BIO_KEYWORDS = true
      ∧ flag_keywords "graphics" ICS_KEYWORDS = true := by
  decide

/-! ### C2 -/

/-- C2 counterexample: a row stored with sources {KEV, NVD} and then
upserted again from a run that computed only {NVD} ends with
`source_list = ["NVD"]` — the stored "KEV" is lost, not unioned (the
claim would require `["KEV", "NVD"]`, the sorted union). -/
theorem C2_source_list_overwritten_counterexample :
    (upsert_vuln (upsert_vuln [] sampleRecTwoSources) sampleRec).map
        (fun row => row.source_list) = [some ["NVD"]]
      ∧ sortedDedup (sampleRecTwoSources.source_list ++ sampleRec.source_list)
          = ["KEV", "NVD"]
      ∧ ([some ["NVD"]] : List (Option (List String))) ≠ [some ["KEV", "NVD"]]
    := by decide

/-- C2 amended: on a duplicate key the stored row is replaced wholesale by
the payload computed from the new record alone — including `source_list`,
which becomes the sorted deduplication of the NEW record's sources, with
no union against the stored set. -/
theorem C2_upsert_overwrites_amended (db : List VulnRow)
    (record : MergedRecord)
    (h : db.any (fun row => row.cve_id = (vulnPayload record).cve_id) = true) :
    upsert_vuln db record =
        db.map (fun row =>
          if row.cve_id = (vulnPayload record).cve_id then vulnPayload record
          else row)
      ∧ (vulnPayload record).source_list =
          (if record.source_list = [] then none
           else some (sortedDedup record.source_list)) := by
  constructor
  · simp [upsert_vuln, h]
  · rfl

/-- Witness for the amended C2 at the concrete two-run scenario. -/
theorem C2_upsert_overwrites_amended_witness :
    upsert_vuln (upsert_vuln [] sampleRecTwoSources) sampleRec =
        (upsert_vuln [] sampleRecTwoSources).map (fun row =>
          if row.cve_id = (vulnPayload sampleRec).cve_id then
            vulnPayload sampleRec
          else row)
      ∧ (vulnPayload sampleRec).source_list =
          (if sampleRec.source_list = [] then none
           else some (sortedDedup sampleRec.source_list)) :=
  C2_upsert_overwrites_amended (upsert_vuln [] sampleRecTwoSources) sampleRec
    (by decide)

/-! ### C7 -/

/-- C7 counterexample: the code's first pass matches trusted-domain
strings as substrings anywhere in the URL, so a URL that merely mentions
"github.com" in its query beats a genuinely NVD-hosted reference; and the
code's extra "realtek.com/Error" broken pattern rejects a vendor advisory
the spec's two patterns would accept.  The spec-worded selector picks a
different URL in both cases. -/
theorem C7_advisory_url_counterexample :
    _extract_advisory_url [refEvil, refNvd] =
        some "https://evil.example/?q=github.com"
      ∧ extract_advisory_url_specModel [refEvil, refNvd] =
          some "https://nvd.nist.gov/vuln/detail/CVE-2024-0001"
      ∧ _extract_advisory_url [refRealtek, refPlain] =
          some "https://other.example/advisory"
      ∧ extract_advisory_url_specModel [refRealtek, refPlain] =
          some "https://www.realtek.com/Errors-page"
      ∧ _extract_advisory_url [refEvil, refNvd] ≠
          extract_advisory_url_specModel [refEvil, refNvd]
      ∧ _extract_advisory_url [refRealtek, refPlain] ≠
          extract_advisory_url_specModel [refRealtek, refPlain] := by decide

/-- The code's broken-URL test equals the amended four-pattern test
("/Error/" lowercases to "/error/", deduplicating the list). -/
theorem is_problematic_url_eq_amended :
    ∀ url, is_problematic_url url = amendedBrokenUrl url := by
  intro url
  unfold is_problematic_url amendedBrokenUrl problematic_patterns
  simp only [List.any_cons, List.any_nil]
  rw [show lowerStr "/Error/" = "/error/" from rfl,
      show lowerStr "/error/" = "/error/" from rfl,
      show lowerStr "/404" = "/404" from rfl,
      show lowerStr "/404.html" = "/404.html" from rfl,
      show lowerStr "realtek.com/Error" = "realtek.com/error" from rfl]
  cases strHasSub (lowerStr url) "/error/" <;> simp

/-- C7 amended: the advisory URL is selected by the five-step priority
with pass 1 matching trusted-domain strings as case-insensitive
substrings anywhere in the URL, and with the known-broken patterns
"/error/", "/404", "/404.html" and "realtek.com/error". -/
theorem C7_advisory_url_amended :
    ∀ refs, _extract_advisory_url refs = extract_advisory_url_amended refs
    := by
  intro refs
  unfold _extract_advisory_url extract_advisory_url_amended
  rw [funext is_problematic_url_eq_amended]

/-! ### C8 -/

/-- C8 counterexample: a tag produced with labels ["KEV", "ICS"] (the
fixed order) is persisted by `upsert_tag` as ["ICS", "KEV"] — the SQL
payload re-sorts the list alphabetically. -/
theorem C8_category_order_not_persisted :
    (score_record (merge_records sampleRecIcs (some sampleKev))
        (some sampleKev) 0).category_labels = ["KEV", "ICS"]
      ∧ (upsert_tag [] (score_record (merge_records sampleRecIcs
          (some sampleKev)) (some sampleKev) 0)).map
          (fun row => row.category_labels) = [some ["ICS", "KEV"]]
      ∧ (["ICS", "KEV"] : List String) ≠ ["KEV", "ICS"] := by decide

/-- C8 amended: `score_record` produces the labels in the fixed order
KEV, ICS, Medical, Bio, severity-label (each present only when its flag is
set) — every produced list is a subsequence of that full sequence — but
`upsert_tag` persists the sorted deduplication of the produced list, not
the fixed order. -/
theorem C8_category_labels_amended :
    (∀ (record : MergedRecord) (kev : Option KevRecord) (today : Nat),
        List.Sublist (score_record record kev today).category_labels
          (["KEV"] ++ ["ICS"] ++ ["Medical"] ++ ["Bio"]
            ++ (if truthyS record.severity then
                  [pyTitle (getS record.severity)]
                else [])))
      ∧ (∀ tag : Tag,
          (upsert_tag [] tag).map (fun row => row.category_labels) =
            [if tag.category_labels = [] then none
             else some (sortedDedup tag.category_labels)]) := by
  constructor
  · intro record kev today
    have hcat : (score_record record kev today).category_labels =
        (if kev.isSome then ["KEV"] else [])
          ++ (if flag_keywords record.description ICS_KEYWORDS then ["ICS"]
              else [])
          ++ (if flag_keywords record.description MEDICAL_KEYWORDS then
                ["Medical"] else [])
          ++ (if flag_keywords record.description BIO_KEYWORDS then ["Bio"]
              else [])
          ++ (if truthyS record.severity then [pyTitle (getS record.severity)]
              else []) := rfl
    rw [hcat]
    refine List.Sublist.append (List.Sublist.append (List.Sublist.append
      (List.Sublist.append ?_ ?_) ?_) ?_) (List.Sublist.refl _)
    · cases kev.isSome <;> simp
    · cases flag_keywords record.description ICS_KEYWORDS <;> simp
    · cases flag_keywords record.description MEDICAL_KEYWORDS <;> simp
    · cases flag_keywords record.description BIO_KEYWORDS <;> simp
  · intro tag
    rfl

/-! ### C5 -/

/-- C5: `pick_safe_action` returns exactly one action by the fixed
priority (KEV-with-due-date, advisory URL, ICS, medical, bio-keyword,
high-severity, none) — in particular a record with both an advisory URL
and the ICS flag (and no KEV due date) gets the advisory text — and when
rule 1 fires with an already-past parsed due date, the `run` post-step
appends the "(overdue)" suffix. -/
theorem C5_safe_action_priority (tags : Tag) (record : MergedRecord)
    (kev : Option KevRecord) (today : Nat) :
    (∀ k, kev = some k → truthyS k.due_date = true →
        pick_safe_action tags record kev =
          some ("Follow CISA KEV guidance; remediate before "
            ++ getS k.due_date ++ "."))
      ∧ (kevHasDue kev = false → truthyS record.advisory_url = true →
          pick_safe_action tags record kev =
            some "Apply vendor guidance/patch per linked advisory.")
      ∧ (kevHasDue kev = false → truthyS record.advisory_url = false →
          ¬tags.ics_flag = 0 →
          pick_safe_action tags record kev =
            some "Segment affected ICS assets and restrict network access until patched.")
      ∧ (kevHasDue kev = false → truthyS record.advisory_url = false →
          tags.ics_flag = 0 → ¬tags.medical_flag = 0 →
          pick_safe_action tags record kev =
            some "Coordinate with clinical engineering to apply vendor update with patient safety review.")
      ∧ (kevHasDue kev = false → truthyS record.advisory_url = false →
          tags.ics_flag = 0 → tags.medical_flag = 0 →
          ¬tags.bio_keyword_flag = 0 →
          pick_safe_action tags record kev =
            some "Review lab controls and update firmware/software per vendor recommendations.")
      ∧ (kevHasDue kev = false → truthyS record.advisory_url = false →
          tags.ics_flag = 0 → tags.medical_flag = 0 →
          tags.bio_keyword_flag = 0 → ¬tags.cvss_high_flag = 0 →
          pick_safe_action tags record kev =
            some "Prioritize remediation alongside other critical vulnerabilities.")
      ∧ (kevHasDue kev = false → truthyS record.advisory_url = false →
          tags.ics_flag = 0 → tags.medical_flag = 0 →
          tags.bio_keyword_flag = 0 → tags.cvss_high_flag = 0 →
          pick_safe_action tags record kev = none)
      ∧ (∀ k, kev = some k → truthyS k.due_date = true →
          ∀ d, parse_kev_date k.due_date = some d → d < today →
          strEndsWithB
            (getS (applyOverdue (pick_safe_action tags record kev) kev today))
            " (overdue)." = true) := by
  refine ⟨?_, ?_, ?_, ?_, ?_, ?_, ?_, ?_⟩
  · intro k hk hdue
    subst hk
    simp [pick_safe_action, hdue]
  · intro hkd hadv
    cases kev with
    | none => simp [pick_safe_action, pickSafeActionRest, hadv]
    | some k =>
      simp only [kevHasDue] at hkd
      simp [pick_safe_action, pickSafeActionRest, hkd, hadv]
  · intro hkd hadv hics
    cases kev with
    | none => simp [pick_safe_action, pickSafeActionRest, hadv, hics]
    | some k =>
      simp only [kevHasDue] at hkd
      simp [pick_safe_action, pickSafeActionRest, hkd, hadv, hics]
  · intro hkd hadv hics hmed
    cases kev with
    | none => simp [pick_safe_action, pickSafeActionRest, hadv, hics, hmed]
    | some k =>
      simp only [kevHasDue] at hkd
      simp [pick_safe_action, pickSafeActionRest, hkd, hadv, hics, hmed]
  · intro hkd hadv hics hmed hbio
    cases kev with
    | none =>
      simp [pick_safe_action, pickSafeActionRest, hadv, hics, hmed, hbio]
    | some k =>
      simp only [kevHasDue] at hkd
      simp [pick_safe_action, pickSafeActionRest, hkd, hadv, hics, hmed,
        hbio]
  · intro hkd hadv hics hmed hbio hcv
    cases kev with
    | none =>
      simp [pick_safe_action, pickSafeActionRest, hadv, hics, hmed, hbio,
        hcv]
    | some k =>
      simp only [kevHasDue] at hkd
      simp [pick_safe_action, pickSafeActionRest, hkd, hadv, hics, hmed,
        hbio, hcv]
  · intro hkd hadv hics hmed hbio hcv
    cases kev with
    | none =>
      simp [pick_safe_action, pickSafeActionRest, hadv, hics, hmed, hbio,
        hcv]
    | some k =>
      simp only [kevHasDue] at hkd
      simp [pick_safe_action, pickSafeActionRest, hkd, hadv, hics, hmed,
        hbio, hcv]
  · intro k hk hdue d hparse hlt
    subst hk
    have hact : pick_safe_action tags record (some k) =
        some ("Follow CISA KEV guidance; remediate before "
          ++ getS k.due_date ++ ".") := by
      simp [pick_safe_action, hdue]
    rw [hact]
    simp [applyOverdue, getS, kevText_startsWith, hdue, hparse, hlt,
      strEndsWithB_append]

/-- Witness for C5: a record with both an advisory URL and the ICS flag
(no KEV) gets the advisory text, and the overdue path fires on the sample
KEV due date from the vantage of 2025-01-01. -/
theorem C5_safe_action_priority_witness :
    pick_safe_action (score_record sampleRecAdvisoryIcs none 0)
        sampleRecAdvisoryIcs none =
        some "Apply vendor guidance/patch per linked advisory."
      ∧ strEndsWithB
          (getS (applyOverdue
            (pick_safe_action (score_record sampleRec (some sampleKev) 0)
              sampleRec (some sampleKev))
            (some sampleKev) (dayNumber 2025 1 1)))
          " (overdue)." = true := by
  constructor
  · exact (C5_safe_action_priority (score_record sampleRecAdvisoryIcs none 0)
      sampleRecAdvisoryIcs none 0).2.1 (by decide) (by decide)
  · exact (C5_safe_action_priority (score_record sampleRec (some sampleKev) 0)
      sampleRec (some sampleKev) (dayNumber 2025 1 1)).2.2.2.2.2.2.2
      sampleKev rfl (by decide) (dayNumber 2024 1 2) (by decide) (by decide)

/-! ### C9 -/

/-- The loaded-tags component of one loop iteration: grows by exactly the
scored tag when the normalized item has a truthy identifier. -/
theorem processNvdItem_snd (kev_rows : List (String × KevRecord))
    (today : Nat) (acc : DbState × List Tag) (item : NvdItem) :
    (processNvdItem kev_rows today acc item).2 =
      if truthyS (normalize_nvd item).cve_id then
        acc.2 ++ [score_record
          (merge_records (normalize_nvd item)
            (dictGet kev_rows (getS (normalize_nvd item).cve_id)))
          (dictGet kev_rows (getS (normalize_nvd item).cve_id)) today]
      else acc.2 := by
  unfold processNvdItem
  cases h : truthyS (normalize_nvd item).cve_id <;> simp [h]

theorem processFold_count :
    ∀ (items : List NvdItem) (acc : DbState × List Tag) (today : Nat),
      ((items.foldl (processNvdItem [] today) acc).2).length =
        acc.2.length
          + (items.filter (fun it => truthyS (normalize_nvd it).cve_id)).length
    := by
  intro items
  induction items with
  | nil => intro acc today; simp
  | cons item rest ih =>
    intro acc today
    rw [List.foldl_cons, ih, List.filter_cons]
    cases h : truthyS (normalize_nvd item).cve_id with
    | false => simp [processNvdItem_snd, h]
    | true => simp [processNvdItem_snd, h, Nat.add_assoc, Nat.add_comm]

theorem processFold_kev_flag :
    ∀ (items : List NvdItem) (acc : DbState × List Tag) (today : Nat),
      (∀ t ∈ acc.2, t.kev_flag = 0) →
      ∀ t ∈ (items.foldl (processNvdItem [] today) acc).2, t.kev_flag = 0 :=
  by
  intro items
  induction items with
  | nil => intro acc today h; exact h
  | cons item rest ih =>
    intro acc today h
    rw [List.foldl_cons]
    apply ih
    intro t ht
    rw [processNvdItem_snd] at ht
    cases hc : truthyS (normalize_nvd item).cve_id with
    | false =>
      rw [hc] at ht
      simp only [if_neg Bool.false_ne_true] at ht
      exact h t ht
    | true =>
      rw [hc, if_pos rfl, List.mem_append] at ht
      cases ht with
      | inl hmem => exact h t hmem
      | inr hnew =>
        simp only [List.mem_singleton] at hnew
        rw [hnew]
        rfl

/-- C9: a primary (NVD) fetch failure makes the run re-raise with the
database untouched and nothing loaded (the model's error branch returns
before the store is consulted); a secondary (KEV) fetch failure degrades
to an empty KEV dict, the run still loads one tag per item with a truthy
identifier, and every tag loaded in such a run has `kev_flag = 0`. -/
theorem C9_fetch_failure_handling :
    (∀ (e : String) (kevResult : Except String (List KevRow))
        (db : DbState) (today : Nat),
        runModel (Except.error e) kevResult db today = Except.error e)
      ∧ (∀ (items : List NvdItem) (e : String) (db : DbState) (today : Nat),
          runModel (Except.ok items) (Except.error e) db today =
            Except.ok (items.foldl (processNvdItem [] today) (db, [])))
      ∧ (∀ (items : List NvdItem) (db : DbState) (today : Nat),
          ((items.foldl (processNvdItem [] today) (db, [])).2).length =
            (items.filter (fun it => truthyS (normalize_nvd it).cve_id)).length)
      ∧ (∀ (items : List NvdItem) (db : DbState) (today : Nat),
          ∀ t ∈ (items.foldl (processNvdItem [] today) (db, [])).2,
            t.kev_flag = 0) := by
  refine ⟨fun e kevResult db today => rfl, fun items e db today => rfl,
    ?_, ?_⟩
  · intro items db today
    simpa using processFold_count items (db, []) today
  · intro items db today
    exact processFold_kev_flag items (db, []) today
      (by intro t ht; simp at ht)

/-- Witness for C9: the single tag loaded for `sampleItem` in a
KEV-degraded run has its known-exploited flag cleared. -/
theorem C9_fetch_failure_handling_witness :
    (score_record (merge_records (normalize_nvd sampleItem)
        (dictGet [] (getS (normalize_nvd sampleItem).cve_id)))
      (dictGet [] (getS (normalize_nvd sampleItem).cve_id)) 0).kev_flag = 0
    := by
  apply C9_fetch_failure_handling.2.2.2 [sampleItem] ⟨[], []⟩ 0
  decide

end Bioisac
